import Mathlib

/-!
Verification of the CloudMLApp video-processing core against its
natural-language specification.

The development shallowly embeds the Python source:

* `app/dynamodb_service.py` — the Job Progress Record (DynamoDB item) and the
  four tracker operations (`create_job_progress`, `update_job_progress`,
  `complete_job`, `fail_job`).  Each operation is modelled as a pure function
  on the record; the wall-clock timestamp produced by
  `datetime.utcnow().isoformat()` is threaded in as an explicit `now` string.
* `app/s3_config.py` / `app/s3_service.py` — the deterministic artifact key
  functions and `upload_file`, over an object store modelled as an
  association list keyed by object key.
* `app/tasks.py` — `transcode_video`, `extract_frames`,
  `run_inference_on_frames`, `process_job` and the orchestrator
  `process_job_s3`.  External effects (S3 download, the ffmpeg subprocess,
  per-frame classification, uploads, the failure-path DynamoDB writes) are
  abstracted into an environment record `Env` describing their outcomes, and
  the orchestrator is embedded as a function from `Env` to its returned
  outcome together with the trace of persistence writes it issues.
* `app/worker.py` — one iteration of the queue-consumption loop, as a
  function from a batch of queue messages to the trace of worker events
  (orchestrator invocations, message deletions, logged errors).
-/

namespace CloudMLApp

/-! ### Job Progress Record (app/dynamodb_service.py) -/

/-- One entry of the per-step status table (`steps` attribute):
`{'name': ..., 'current_status': ...}`. -/
structure StepEntry where
  name : String
  current_status : String
deriving DecidableEq, Repr

/-- A DynamoDB attribute value as used for `ml_result`.  The source stores
arbitrary JSON-like dicts; floats are converted to `Decimal` by
`_convert_floats_to_decimal` before storage.  Numeric payloads are carried as
their string representation, which suffices for the claims (none inspects
numeric arithmetic on results). -/
inductive MLVal where
  | str (s : String)
  | float (r : String)
  | decimal (r : String)
deriving DecidableEq, Repr

/-- A flat JSON-like dict, the shape of the `result`/`ml_result` payload. -/
abbrev MLDict := List (String × MLVal)

/-- `DynamoDBService._convert_floats_to_decimal`, on the flat dict model:
float leaves become `Decimal`, everything else is unchanged. -/
def convertVal : MLVal → MLVal
  | .float r => .decimal r
  | v => v

def convert_floats_to_decimal (d : MLDict) : MLDict :=
  d.map (fun p => (p.1, convertVal p.2))

/-- The Job Progress Record: the DynamoDB item written by
`create_job_progress` and mutated by the tracker operations. -/
structure JobProgressRecord where
  qut_username : String
  job_id : String
  status : String
  progress : Int
  current_step : String
  total_steps : Nat
  created_at : String
  updated_at : String
  video_filename : String
  owner : String
  steps : List (String × StepEntry)
  ml_result : Option MLDict
  error_message : Option String
deriving DecidableEq, Repr

/-- The five-row step table written at creation
(`create_job_progress`, lines 44–50 of `dynamodb_service.py`). -/
def initialSteps : List (String × StepEntry) :=
  [("1", ⟨"Download from S3", "pending"⟩),
   ("2", ⟨"Extract thumbnail", "pending"⟩),
   ("3", ⟨"Transcode video", "pending"⟩),
   ("4", ⟨"ML prediction", "pending"⟩),
   ("5", ⟨"Upload results", "pending"⟩)]

/-- `DynamoDBService.create_job_progress`: the initial item put for a job. -/
def create_job_progress (qut_username job_id video_filename owner now : String) :
    JobProgressRecord :=
  { qut_username := qut_username
    job_id := job_id
    status := "queued"
    progress := 0
    current_step := "initialized"
    total_steps := 5
    created_at := now
    updated_at := now
    video_filename := video_filename
    owner := owner
    steps := initialSteps
    ml_result := none
    error_message := none }

/-- Python truthiness of the `Optional[Dict]` argument `result` in
`update_job_progress` (`if result:`): `None` and the empty dict are falsy. -/
def pyTruthy : Option MLDict → Bool
  | none => false
  | some d => !d.isEmpty

/-- `DynamoDBService.update_job_progress`: the update expression
`SET progress = :progress, current_step = :current_step, updated_at = :updated_at`
extended with `, ml_result = :ml_result` exactly when `result` is truthy.
The `step_status` parameter of the Python method is accepted and never used by
the method body, so it does not appear here. -/
def update_job_progress (rec : JobProgressRecord) (progress : Int)
    (current_step : String) (now : String) (result : Option MLDict) :
    JobProgressRecord :=
  let base := { rec with
    progress := progress
    current_step := current_step
    updated_at := now }
  if pyTruthy result then
    { base with ml_result := (result.getD []).map (fun p => (p.1, convertVal p.2)) }
  else
    base

/-- `DynamoDBService.complete_job`: update expression
`SET #status = :status, progress = :progress, ml_result = :ml_result, updated_at = :updated_at`
with `:status = 'completed'` and `:progress = 100`. -/
def complete_job (rec : JobProgressRecord) (result : MLDict) (now : String) :
    JobProgressRecord :=
  { rec with
    status := "completed"
    progress := 100
    ml_result := some (convert_floats_to_decimal result)
    updated_at := now }

/-- `DynamoDBService.fail_job`: update expression
`SET #status = :status, error_message = :error_message, updated_at = :updated_at`
with `:status = 'failed'`.  Note that `progress` is not among the attributes
the expression sets. -/
def fail_job (rec : JobProgressRecord) (error_message : String) (now : String) :
    JobProgressRecord :=
  { rec with
    status := "failed"
    error_message := some error_message
    updated_at := now }

/-! ### Object store and key layout (app/s3_config.py, app/s3_service.py) -/

/-- The key-layout configuration of `S3Config`.  The Python attribute names
end in `_prefix`; they are spelled `prefix_*` here. -/
structure S3Config where
  region : String
  bucket_name : String
  prefix_upload : String
  prefix_transcoded : String
  prefix_thumbnails : String
  prefix_temp : String
deriving DecidableEq, Repr

/-- `S3Config.get_upload_key`: unlike the three artifact key functions below,
it draws a fresh `uuid4`, modelled as an explicit argument. -/
def S3Config.get_upload_key (cfg : S3Config) (uuid filename : String) : String :=
  cfg.prefix_upload ++ uuid ++ "_" ++ filename

/-- `S3Config.get_transcoded_key`. -/
def S3Config.get_transcoded_key (cfg : S3Config) (job_id filename : String) : String :=
  cfg.prefix_transcoded ++ job_id ++ "/" ++ filename

/-- `S3Config.get_thumbnail_key`. -/
def S3Config.get_thumbnail_key (cfg : S3Config) (job_id filename : String) : String :=
  cfg.prefix_thumbnails ++ job_id ++ "/" ++ filename

/-- `S3Config.get_temp_key`. -/
def S3Config.get_temp_key (cfg : S3Config) (job_id filename : String) : String :=
  cfg.prefix_temp ++ job_id ++ "/" ++ filename

/-- The object store: a functional map from object key to stored content
(content bytes abstracted as a string).  An S3 `put` replaces whatever was
stored at the key. -/
abbrev ObjectStore := List (String × String)

def storeGet (store : ObjectStore) (key : String) : Option String :=
  (store.find? (fun p => p.1 == key)).map Prod.snd

def storePut (store : ObjectStore) (key content : String) : ObjectStore :=
  (key, content) :: store.filter (fun p => p.1 != key)

/-- The dict returned by `S3Service.upload_file` on success. -/
structure UploadFileResult where
  success : Bool
  key : String
  url : String
  bucket : String
deriving DecidableEq, Repr

/-- `S3Service.upload_file`: calls `upload_fileobj` unconditionally — it never
consults whether an object already exists at `key` — and returns the success
dict with the object URL.  AWS-side network failures (the `ClientError`
branch, re-raised as an HTTP 500) are outside this model; the claims settled
against it concern the handling of already-present keys, which is fully
modelled by `storePut`. -/
def upload_file (cfg : S3Config) (store : ObjectStore) (content key : String) :
    ObjectStore × UploadFileResult :=
  (storePut store key content,
   { success := true
     key := key
     url := "https://" ++ cfg.bucket_name ++ ".s3." ++ cfg.region ++ ".amazonaws.com/" ++ key
     bucket := cfg.bucket_name })

/-! ### Pipeline stages (app/tasks.py) -/

/-- The message of the `RuntimeError` raised by `transcode_video` and
`extract_frames` when `shutil.which("ffmpeg")` returns `None`. -/
def toolUnavailableMsg : String := "ffmpeg not found in PATH"

/-- `str(subprocess.CalledProcessError)` for a non-zero exit status: the
message `subprocess.run(cmd, check=True)` raises with. -/
def calledProcessMsg (cmdName : String) (exitCode : Nat) : String :=
  "Command " ++ cmdName ++ " returned non-zero exit status " ++ toString exitCode ++ "."

/-- `transcode_video`: raises `RuntimeError("ffmpeg not found in PATH")` when
the binary is absent from PATH, then runs ffmpeg with `check=True`, which
raises `CalledProcessError` exactly when the process exits non-zero.  The
outcome of the external process is abstracted into its exit code. -/
def transcode_video (ffmpegFound : Bool) (exitCode : Nat) : Except String Unit :=
  if ffmpegFound = false then .error toolUnavailableMsg
  else if exitCode ≠ 0 then .error (calledProcessMsg "ffmpeg" exitCode)
  else .ok ()

/-- `extract_frames`: same PATH lookup and `check=True` subprocess structure
as `transcode_video`. -/
def extract_frames (ffmpegFound : Bool) (exitCode : Nat) : Except String Unit :=
  if ffmpegFound = false then .error toolUnavailableMsg
  else if exitCode ≠ 0 then .error (calledProcessMsg "ffmpeg" exitCode)
  else .ok ()

/-- One classification label entry `{"index": ..., "label": ..., "probability": ...}`. -/
structure Label where
  index : Nat
  label : String
  probability : String
deriving DecidableEq, Repr

/-- The `labels` field of an inference result entry: either the top-k scores
or the single embedded error marker `[{"error": str(e)}]`. -/
inductive LabelsField where
  | scored (ls : List Label)
  | errorMarker (msg : String)
deriving DecidableEq, Repr

/-- One entry of the inference result list: `{"frame": fname, "labels": ...}`. -/
structure InferenceEntry where
  frame : String
  labels : LabelsField
deriving DecidableEq, Repr

instance {ε α : Type} [DecidableEq ε] [DecidableEq α] : DecidableEq (Except ε α) := fun x y =>
  match x, y with
  | .error a, .error b =>
    if h : a = b then isTrue (h ▸ rfl) else isFalse fun hc => h (by cases hc; rfl)
  | .error _, .ok _ => isFalse fun hc => by cases hc
  | .ok _, .error _ => isFalse fun hc => by cases hc
  | .ok a, .ok b =>
    if h : a = b then isTrue (h ▸ rfl) else isFalse fun hc => h (by cases hc; rfl)

/-- A file of the frames directory, together with the outcome of attempting
to open and classify it (the body of the per-frame `try`). -/
structure Frame where
  fname : String
  classify : Except String (List Label)
deriving DecidableEq

/-- ASCII lowering of one character (`str.lower()` restricted to the ASCII
filenames the pipeline produces). -/
def lowerChar (c : Char) : Char :=
  if c.isUpper then Char.ofNat (c.toNat + 32) else c

/-- `s.lower()`. -/
def toLowerStr (s : String) : String := String.mk (s.data.map lowerChar)

/-- `s.endswith(t)`. -/
def endsWithStr (s t : String) : Bool := t.data.isSuffixOf s.data

/-- `fname.lower().endswith(".jpg")`. -/
def isJpg (fname : String) : Bool := endsWithStr (toLowerStr fname) ".jpg"

/-- Code-point lexicographic `≤` on strings, the order Python's `sorted`
uses on `str`. -/
def charListLe : List Char → List Char → Bool
  | [], _ => true
  | _ :: _, [] => false
  | a :: as, b :: bs =>
    if a = b then charListLe as bs else decide (a.toNat < b.toNat)

def strLe (a b : String) : Bool := charListLe a.data b.data

/-- Stable insertion of one frame into a filename-sorted list. -/
def insertSorted (fr : Frame) : List Frame → List Frame
  | [] => [fr]
  | x :: xs => if strLe fr.fname x.fname then fr :: x :: xs else x :: insertSorted fr xs

/-- Python's stable `sorted(os.listdir(frames_dir))`, modelled as a stable
insertion sort on filenames. -/
def sortFrames : List Frame → List Frame
  | [] => []
  | x :: xs => insertSorted x (sortFrames xs)

def jpgFrames (dir : List Frame) : List Frame :=
  (sortFrames dir).filter (fun fr => isJpg fr.fname)

/-- The result entry produced for one frame: the `try` body appends the
scored entry, the `except` arm appends the entry with the embedded error
marker in its place. -/
def frameEntry (fr : Frame) : InferenceEntry :=
  match fr.classify with
  | .ok ls => ⟨fr.fname, .scored ls⟩
  | .error e => ⟨fr.fname, .errorMarker e⟩

/-- `run_inference_on_frames`: iterates the sorted directory listing,
skips non-`.jpg` names (`continue`), and appends one entry per frame —
scored, or the error marker when classification raised.  (`_ensure_model()`
returns `True`; the model-loading guard is not a per-frame effect.) -/
def run_inference_on_frames (dir : List Frame) : List InferenceEntry :=
  (sortFrames dir).foldl
    (fun results fr =>
      if !(isJpg fr.fname) then results
      else results ++ [frameEntry fr])
    []

/-- The dict returned by `process_job` (the `frames_dir` path and
`result.json` side-write carry no information the claims need). -/
structure ProcessJobResult where
  transcoded : Option String
  thumbnail : Option String
  inference : List InferenceEntry
deriving DecidableEq, Repr

/-- Outcome of the failure-path persistence block
(`update_job_progress(job_id, 0, "error", ...)` then `fail_job`): both
succeed, the first raises (neither write lands), or the second raises (only
the first lands).  A raise here is caught by `except Exception as db_error`. -/
inductive FailPersistOutcome where
  | ok
  | updateRaises
  | failJobRaises
deriving DecidableEq, Repr

/-- Outcomes of the external effects one orchestrator run performs, in the
order the run would encounter them.  Each field abstracts one effectful call
of `process_job_s3` / `process_job` into its result. -/
structure Env where
  /-- `s3_service.download_file` returns (`true`) or raises (`false`). -/
  downloadOk : Bool
  /-- `str(e)` of the download exception when it raises. -/
  downloadErr : String
  /-- `shutil.which("ffmpeg")` finds the binary. -/
  ffmpegFound : Bool
  /-- Exit code of the transcode ffmpeg process. -/
  transcodeExit : Nat
  /-- Exit code of the frame-extraction ffmpeg process. -/
  extractExit : Nat
  /-- The frames directory contents after extraction, with each frame's
  classification outcome. -/
  framesDir : List Frame
  /-- The PIL thumbnail open/resize/save succeeds (only consulted when at
  least one `.jpg` frame exists). -/
  thumbnailOk : Bool
  thumbnailErr : String
  /-- The S3 uploads of the result artifacts succeed. -/
  uploadsOk : Bool
  uploadsErr : String
  /-- The best-effort relational (SQL) status update of the success path
  completes (credentials present, job row found, commit succeeds); its whole
  block is wrapped in `try/except`, so either way the run returns success. -/
  sqlUpdateOk : Bool
  /-- How the two DynamoDB writes of the failure path fare. -/
  failPersist : FailPersistOutcome

/-- `process_job`: transcode, extract frames, run inference (its enclosing
`try/except` never fires since `run_inference_on_frames` absorbs per-frame
errors itself), then write the thumbnail from the first sorted `.jpg` frame
when one exists (a PIL failure there propagates).  On success the returned
dict names the transcoded file and, when frames exist, the thumbnail. -/
def process_job (env : Env) : Except String ProcessJobResult :=
  match transcode_video env.ffmpegFound env.transcodeExit with
  | .error e => .error e
  | .ok _ =>
    match extract_frames env.ffmpegFound env.extractExit with
    | .error e => .error e
    | .ok _ =>
      let inference := run_inference_on_frames env.framesDir
      if (jpgFrames env.framesDir).isEmpty then
        .ok { transcoded := some "transcoded.mp4", thumbnail := none, inference := inference }
      else if env.thumbnailOk then
        .ok { transcoded := some "transcoded.mp4", thumbnail := some "thumbnail.jpg",
              inference := inference }
      else
        .error env.thumbnailErr

/-! ### Orchestrator (app/tasks.py, process_job_s3) -/

/-- One write issued against the Job Progress Record.  The orchestrator's
`update_job_progress` calls pass their fourth argument positionally into the
unused `step_status` parameter, so their `result` is always `None`. -/
inductive TrackerWrite where
  | update (progress : Int) (current_step : String) (result : Option MLDict)
  | complete (result : MLDict)
  | fail (error_message : String)
deriving DecidableEq, Repr

/-- Apply one tracker write to a record (timestamping it `now`). -/
def applyWrite (rec : JobProgressRecord) (now : String) : TrackerWrite → JobProgressRecord
  | .update p s r => update_job_progress rec p s now r
  | .complete r => complete_job rec r now
  | .fail m => fail_job rec m now

/-- Apply a trace of tracker writes in order. -/
def applyTrace (rec : JobProgressRecord) (now : String) (ws : List TrackerWrite) :
    JobProgressRecord :=
  ws.foldl (fun r w => applyWrite r now w) rec

/-- The progress values a trace writes (`fail` sets none). -/
def progressWrites (ws : List TrackerWrite) : List Int :=
  ws.filterMap (fun w => match w with
    | .update p _ _ => some p
    | .complete _ => some 100
    | .fail _ => none)

/-- What `process_job_s3` does at its boundary: returns the result dict,
returns the `{"error": str(e), "trace": ..., "s3_input_key": ...}` dict, or
lets an exception propagate to the caller. -/
inductive Outcome where
  | success (result : ProcessJobResult)
  | failure (errMsg : String)
  | raised (errMsg : String)
deriving DecidableEq, Repr

/-- A terminal write against the relational (SQL) Job Record. -/
inductive SqlWrite where
  | setDone
deriving DecidableEq, Repr

/-- One orchestrator run: the value returned to the caller, the trace of Job
Progress Record writes, and the trace of relational Job Record writes. -/
structure RunResult where
  outcome : Outcome
  dbWrites : List TrackerWrite
  sqlWrites : List SqlWrite
deriving DecidableEq, Repr

/-- The `result` dict as passed to `complete_job` (serialised; the claims
never inspect its contents, only that the completed record stores one). -/
def resultDict (r : ProcessJobResult) : MLDict :=
  [("transcoded", MLVal.str (r.transcoded.getD "None")),
   ("thumbnail", MLVal.str (r.thumbnail.getD "None")),
   ("inference_entries", MLVal.str (toString r.inference.length))]

/-- The `except Exception as e` arm of `process_job_s3`: logs, then inside a
nested `try` writes `update_job_progress(job_id, 0, "error", ...)` and
`fail_job(job_id, str(e))`; a raise from either write is caught by
`except Exception as db_error` and logged; finally the error dict is
returned.  `ws` is the trace accumulated before the exception. -/
def failPath (env : Env) (e : String) (ws : List TrackerWrite) : RunResult :=
  { outcome := .failure e
    dbWrites := ws ++
      (match env.failPersist with
       | .ok => [.update 0 "error" none, .fail e]
       | .updateRaises => []
       | .failJobRaises => [.update 0 "error" none])
    sqlWrites := [] }

/-- `process_job_s3`: download (after the 20%/`download` update), process
(after the 40%/`thumbnail` update), the 60%/`transcode` and
80%/`ml_prediction` updates, the artifact uploads, the 100%/`complete`
update, `complete_job`, and the best-effort SQL `done` write (whose whole
block is wrapped in `try/except`, so it cannot fail the run).  Any exception
of the main body lands in `failPath`. -/
def process_job_s3 (env : Env) : RunResult :=
  let w1 := TrackerWrite.update 20 "download" none
  if !env.downloadOk then
    failPath env env.downloadErr [w1]
  else
    let w2 := TrackerWrite.update 40 "thumbnail" none
    match process_job env with
    | .error e => failPath env e [w1, w2]
    | .ok res =>
      let w3 := TrackerWrite.update 60 "transcode" none
      let w4 := TrackerWrite.update 80 "ml_prediction" none
      if !env.uploadsOk then
        failPath env env.uploadsErr [w1, w2, w3, w4]
      else
        { outcome := .success res
          dbWrites := [w1, w2, w3, w4,
                       .update 100 "complete" none, .complete (resultDict res)]
          sqlWrites := if env.sqlUpdateOk then [.setDone] else [] }

/-! ### Queue consumer (app/worker.py) -/

/-- One observable action of the worker loop body. -/
inductive WorkerEvent where
  | callProcess (job_id s3_key : String)
  | deleteMessage (receiptHandle : String)
  | logError (msg : String)
deriving DecidableEq, Repr

/-- One received queue message: its receipt handle, the outcome of
`json.loads(message['Body'])` plus the two key lookups, and whether the
`process_job_s3` call raises out of the loop body (`none`: it returns). -/
structure QueueMessage where
  receiptHandle : String
  parse : Except String (String × String)
  processRaises : Option String

/-- The `try` body of the loop, for one message: parse, invoke the
orchestrator, and delete the message only after the call returned; any
exception is caught by the per-message `except`, logged, and the message is
left undeleted. -/
def handleMessage (m : QueueMessage) : List WorkerEvent :=
  match m.parse with
  | .error e => [.logError e]
  | .ok (job_id, s3_key) =>
    match m.processRaises with
    | some e => [.callProcess job_id s3_key, .logError e]
    | none => [.callProcess job_id s3_key, .deleteMessage m.receiptHandle]

/-- One iteration of `main`'s `while True` loop: handle every received
message in order; a failure on one message never prevents handling the
next. -/
def workerIteration (msgs : List QueueMessage) : List WorkerEvent :=
  msgs.foldl (fun acc m => acc ++ handleMessage m) []

end CloudMLApp

namespace CloudMLApp

/-! ### Shared helper definitions for the claim theorems -/

/-- Predicate: the write is a `complete_job` (success-terminal) write. -/
def isCompleteWrite : TrackerWrite → Bool
  | .complete _ => true
  | _ => false

/-- Predicate: the outcome is an exception propagating past the orchestrator. -/
def isRaisedOutcome : Outcome → Bool
  | .raised _ => true
  | _ => false

/-- Predicate: the worker event is a queue-message deletion. -/
def isDeleteEvent : WorkerEvent → Bool
  | .deleteMessage _ => true
  | _ => false

/-- Predicate: `json.loads` and the key lookups succeeded for the message. -/
def parseSucceeded (m : QueueMessage) : Bool :=
  match m.parse with
  | .ok _ => true
  | .error _ => false

/-- A frame whose classification succeeds. -/
def frameOkA : Frame := ⟨"frame_00001.jpg", .ok [⟨0, "cat", "0.9"⟩]⟩

/-- An environment in which every external effect succeeds. -/
def envOk : Env :=
  { downloadOk := true, downloadErr := "dl"
    ffmpegFound := true, transcodeExit := 0, extractExit := 0
    framesDir := [frameOkA]
    thumbnailOk := true, thumbnailErr := "thumb"
    uploadsOk := true, uploadsErr := "up"
    sqlUpdateOk := true, failPersist := .ok }

/-- `envOk` except that `shutil.which("ffmpeg")` returns `None`. -/
def envNoFfmpeg : Env := { envOk with ffmpegFound := false }

/-- `envNoFfmpeg`, and additionally the failure-path `update_job_progress`
call raises. -/
def envNoFfmpegPersistRaises : Env :=
  { envOk with ffmpegFound := false, failPersist := .updateRaises }

/-- A freshly created progress record, as the enqueue path creates it. -/
def rec0W : JobProgressRecord :=
  create_job_progress "n11086840@qut.edu.au" "job-1" "vid.mp4" "alice" "t0"

/-- The result dict `process_job_s3` returns in `envOk`. -/
def resOk : ProcessJobResult :=
  { transcoded := some "transcoded.mp4", thumbnail := some "thumbnail.jpg"
    inference := [⟨"frame_00001.jpg", .scored [⟨0, "cat", "0.9"⟩]⟩] }

/-! ### Shared helper lemmas -/

/-- Applying a trace that ends with the two failure-path writes yields a
record in terminal `failed` state with the error message set and progress 0,
whatever came before. -/
theorem failTail (rec0 : JobProgressRecord) (t e : String) (ws : List TrackerWrite) :
    (applyTrace rec0 t (ws ++ [.update 0 "error" none, .fail e])).status = "failed" ∧
    (applyTrace rec0 t (ws ++ [.update 0 "error" none, .fail e])).error_message = some e ∧
    (applyTrace rec0 t (ws ++ [.update 0 "error" none, .fail e])).progress = 0 := by
  simp [applyTrace, List.foldl_append, applyWrite, update_job_progress, pyTruthy, fail_job]

/-- A `CalledProcessError` message is never the missing-binary message
(their first characters already differ). -/
theorem calledProcessMsg_ne (c : String) (n : Nat) :
    calledProcessMsg c n ≠ toolUnavailableMsg := by
  intro h
  have h2 := congrArg (fun s => s.data.head?) h
  simp [calledProcessMsg, toolUnavailableMsg, String.data_append] at h2

/-- When a run returns the failure dict and the failure-path writes land, the
write trace is some stage-progress writes followed by exactly the error
update and the `fail_job` write. -/
theorem failure_shape (env : Env) (e : String)
    (hout : (process_job_s3 env).outcome = .failure e) (hp : env.failPersist = .ok) :
    ∃ ws, (process_job_s3 env).dbWrites = ws ++ [.update 0 "error" none, .fail e] := by
  unfold process_job_s3 at hout ⊢
  cases hdl : env.downloadOk
  · simp [hdl, failPath, hp] at hout ⊢
    subst hout
    exact ⟨[TrackerWrite.update 20 "download" none], rfl⟩
  · cases hpj : process_job env with
    | error e2 =>
      simp [hdl, hpj, failPath, hp] at hout ⊢
      subst hout
      exact ⟨[TrackerWrite.update 20 "download" none, TrackerWrite.update 40 "thumbnail" none], rfl⟩
    | ok res =>
      cases hup : env.uploadsOk
      · simp [hdl, hpj, hup, failPath, hp] at hout ⊢
        subst hout
        exact ⟨[TrackerWrite.update 20 "download" none, TrackerWrite.update 40 "thumbnail" none,
                TrackerWrite.update 60 "transcode" none, TrackerWrite.update 80 "ml_prediction" none], rfl⟩
      · simp [hdl, hpj, hup, failPath] at hout

/-- When a run returns the success dict the write trace is exactly the five
scheduled updates followed by the `complete_job` write. -/
theorem success_shape (env : Env) (res : ProcessJobResult)
    (h : (process_job_s3 env).outcome = .success res) :
    (process_job_s3 env).dbWrites =
      [.update 20 "download" none, .update 40 "thumbnail" none,
       .update 60 "transcode" none, .update 80 "ml_prediction" none,
       .update 100 "complete" none, .complete (resultDict res)] := by
  unfold process_job_s3 at h ⊢
  cases hdl : env.downloadOk
  · simp [hdl, failPath] at h
  · cases hpj : process_job env with
    | error e => simp [hdl, hpj, failPath] at h
    | ok r =>
      cases hup : env.uploadsOk
      · simp [hdl, hpj, hup, failPath] at h
      · simp [hdl, hpj, hup] at h ⊢
        rw [h]

/-- `run_inference_on_frames` is exactly the per-frame entry map over the
sorted `.jpg` listing. -/
theorem run_inference_eq (dir : List Frame) :
    run_inference_on_frames dir = (jpgFrames dir).map frameEntry := by
  unfold run_inference_on_frames jpgFrames
  generalize sortFrames dir = l
  suffices h : ∀ (l : List Frame) (acc : List InferenceEntry),
      l.foldl (fun results fr => if !(isJpg fr.fname) then results else results ++ [frameEntry fr]) acc
        = acc ++ (l.filter (fun fr => isJpg fr.fname)).map frameEntry by
    simpa using h l []
  intro l
  induction l with
  | nil => intro acc; simp
  | cons x xs ih =>
    intro acc
    by_cases hx : isJpg x.fname
    · have hfx : (if (!isJpg x.fname) = true then acc else acc ++ [frameEntry x])
          = acc ++ [frameEntry x] := by simp [hx]
      simp only [List.foldl_cons]
      rw [hfx, ih]
      simp [List.filter_cons, hx]
    · have hfx : (if (!isJpg x.fname) = true then acc else acc ++ [frameEntry x]) = acc := by
        simp [Bool.eq_false_iff.mpr hx]
      simp only [List.foldl_cons]
      rw [hfx, ih]
      simp [List.filter_cons, hx]

/-- Handling of the head message never affects how the rest of the batch is
handled. -/
theorem workerIteration_cons (m : QueueMessage) (rest : List QueueMessage) :
    workerIteration (m :: rest) = handleMessage m ++ workerIteration rest := by
  unfold workerIteration
  suffices h : ∀ (l : List QueueMessage) (acc : List WorkerEvent),
      l.foldl (fun a mm => a ++ handleMessage mm) acc
        = acc ++ l.foldl (fun a mm => a ++ handleMessage mm) [] by
    simp only [List.foldl_cons]
    rw [h rest (([] : List WorkerEvent) ++ handleMessage m)]
    simp
  intro l
  induction l with
  | nil => intro acc; simp
  | cons x xs ih =>
    intro acc
    simp only [List.foldl_cons]
    rw [ih (acc ++ handleMessage x), ih ([] ++ handleMessage x)]
    simp

/-- No tracker write touches the `steps` attribute. -/
theorem applyWrite_steps (rec : JobProgressRecord) (t : String) (w : TrackerWrite) :
    (applyWrite rec t w).steps = rec.steps := by
  cases w with
  | update p s r =>
    cases hpt : pyTruthy r <;> simp [applyWrite, update_job_progress, hpt]
  | complete r => rfl
  | fail m => rfl

/-- No trace of tracker writes touches the `steps` attribute. -/
theorem applyTrace_steps (t : String) (ws : List TrackerWrite) :
    ∀ rec : JobProgressRecord, (applyTrace rec t ws).steps = rec.steps := by
  induction ws with
  | nil => intro rec; rfl
  | cons w rest ih =>
    intro rec
    unfold applyTrace at ih ⊢
    simp only [List.foldl_cons]
    rw [ih (applyWrite rec t w), applyWrite_steps]

end CloudMLApp

namespace CloudMLApp

/-- C1 counterexample: with ffmpeg missing, progress has advanced to 40 when
the stage raises, yet the failure path writes progress 0 — the written
progress sequence is 20, 40, 0, so progress decreases and the terminal
`failed` record does not keep the last advanced value. -/
theorem C1_counterexample :
    (process_job_s3 envNoFfmpeg).outcome = Outcome.failure toolUnavailableMsg ∧
    progressWrites (process_job_s3 envNoFfmpeg).dbWrites = [20, 40, 0] ∧
    (applyTrace rec0W "t1" (process_job_s3 envNoFfmpeg).dbWrites).status = "failed" ∧
    (applyTrace rec0W "t1" (process_job_s3 envNoFfmpeg).dbWrites).progress = 0 ∧
    ¬ (applyTrace rec0W "t1" (process_job_s3 envNoFfmpeg).dbWrites).progress = 40 := by
  decide

/-- C1 (corrected): when processing fails and the failure-path writes land,
the terminal record has status `failed` and `error_message` set, but its
`progress_percent` is 0 — the failure path first resets progress to 0 with
step label `error`; `fail_job` itself leaves `progress` unchanged. -/
theorem C1_fail_resets_progress (env : Env) (e : String)
    (rec rec0 : JobProgressRecord) (m now t : String)
    (hout : (process_job_s3 env).outcome = .failure e)
    (hp : env.failPersist = .ok) :
    (fail_job rec m now).progress = rec.progress ∧
    (applyTrace rec0 t (process_job_s3 env).dbWrites).status = "failed" ∧
    (applyTrace rec0 t (process_job_s3 env).dbWrites).error_message = some e ∧
    (applyTrace rec0 t (process_job_s3 env).dbWrites).progress = 0 := by
  obtain ⟨ws, hws⟩ := failure_shape env e hout hp
  rw [hws]
  exact ⟨rfl, failTail rec0 t e ws⟩

/-- C1 witness: the corrected statement evaluated in the missing-ffmpeg run. -/
theorem C1_witness :
    (fail_job rec0W "boom" "t2").progress = rec0W.progress ∧
    (applyTrace rec0W "t1" (process_job_s3 envNoFfmpeg).dbWrites).status = "failed" ∧
    (applyTrace rec0W "t1" (process_job_s3 envNoFfmpeg).dbWrites).error_message
      = some toolUnavailableMsg ∧
    (applyTrace rec0W "t1" (process_job_s3 envNoFfmpeg).dbWrites).progress = 0 :=
  C1_fail_resets_progress envNoFfmpeg toolUnavailableMsg rec0W rec0W "boom" "t2" "t1"
    (by decide) (by decide)

/-- C2 counterexample: in the missing-ffmpeg failing run the orchestrator
performs no write at all against the relational Job Record — in particular no
`failed` terminal write there; both failure writes go to the progress
tracker. -/
theorem C2_counterexample :
    (process_job_s3 envNoFfmpeg).outcome = Outcome.failure toolUnavailableMsg ∧
    (process_job_s3 envNoFfmpeg).sqlWrites = [] := by
  decide

/-- C2 (corrected): a stage failure aborts the remaining stages and produces
a failure return value; the `failed` progress update and the `failed`
terminal write both go to the Job Progress Record (key-value store) — the
error-update and `fail_job` writes are in the trace, no success-terminal
write is, the error message is carried — while the relational Job Record
receives no write at all on the failure path; nothing is raised. -/
theorem C2_failure_writes (env : Env) (e : String)
    (hout : (process_job_s3 env).outcome = .failure e)
    (hp : env.failPersist = .ok) :
    TrackerWrite.update 0 "error" none ∈ (process_job_s3 env).dbWrites ∧
    TrackerWrite.fail e ∈ (process_job_s3 env).dbWrites ∧
    (process_job_s3 env).dbWrites.countP isCompleteWrite = 0 ∧
    (process_job_s3 env).sqlWrites = [] ∧
    isRaisedOutcome (process_job_s3 env).outcome = false := by
  unfold process_job_s3 at hout ⊢
  cases hdl : env.downloadOk
  · simp [hdl, failPath, hp] at hout ⊢
    subst hout
    simp [List.countP_cons, isCompleteWrite, isRaisedOutcome]
  · cases hpj : process_job env with
    | error e2 =>
      simp [hdl, hpj, failPath, hp] at hout ⊢
      subst hout
      simp [List.countP_cons, isCompleteWrite, isRaisedOutcome]
    | ok res =>
      cases hup : env.uploadsOk
      · simp [hdl, hpj, hup, failPath, hp] at hout ⊢
        subst hout
        simp [List.countP_cons, isCompleteWrite, isRaisedOutcome]
      · simp [hdl, hpj, hup, failPath] at hout

/-- C2 witness: the corrected statement evaluated in the missing-ffmpeg run. -/
theorem C2_witness :
    TrackerWrite.update 0 "error" none ∈ (process_job_s3 envNoFfmpeg).dbWrites ∧
    TrackerWrite.fail toolUnavailableMsg ∈ (process_job_s3 envNoFfmpeg).dbWrites ∧
    (process_job_s3 envNoFfmpeg).dbWrites.countP isCompleteWrite = 0 ∧
    (process_job_s3 envNoFfmpeg).sqlWrites = [] ∧
    isRaisedOutcome (process_job_s3 envNoFfmpeg).outcome = false :=
  C2_failure_writes envNoFfmpeg toolUnavailableMsg (by decide) (by decide)

/-- C3 counterexample: ffmpeg is missing and the failed-status write to the
progress store itself raises — the claim says the error must propagate to
the consumer, but the run still returns the failure dict (the raise is caught
by `except Exception as db_error`), and no failed-status write landed. -/
theorem C3_counterexample :
    (process_job_s3 envNoFfmpegPersistRaises).outcome = Outcome.failure toolUnavailableMsg ∧
    (process_job_s3 envNoFfmpegPersistRaises).dbWrites
      = [.update 20 "download" none, .update 40 "thumbnail" none] ∧
    isRaisedOutcome (process_job_s3 envNoFfmpegPersistRaises).outcome = false := by
  decide

/-- C3 (corrected): `process_job_s3` never propagates an error past the
orchestrator boundary — in every environment, including those where the
failed-status write to the progress store itself raises, the exception is
caught and a failure (or success) value is returned to the consumer. -/
theorem C3_never_raises (env : Env) :
    isRaisedOutcome (process_job_s3 env).outcome = false := by
  unfold process_job_s3
  cases hdl : env.downloadOk
  · simp [failPath, isRaisedOutcome]
  · cases hpj : process_job env with
    | error e => simp [hpj, failPath, isRaisedOutcome]
    | ok res =>
      cases hup : env.uploadsOk <;> simp [hpj, hup, failPath, isRaisedOutcome]

/-- C4 (confirmed): every successful run writes exactly the schedule
20/download, 40/thumbnail, 60/transcode, 80/ml_prediction, 100/complete and
the `complete_job` terminal write; the written progress sequence is
monotonically non-decreasing and ends at exactly 100, and the resulting
record is `completed` with progress 100. -/
theorem C4_success_schedule (env : Env) (res : ProcessJobResult)
    (rec0 : JobProgressRecord) (t : String)
    (h : (process_job_s3 env).outcome = .success res) :
    (process_job_s3 env).dbWrites =
      [.update 20 "download" none, .update 40 "thumbnail" none,
       .update 60 "transcode" none, .update 80 "ml_prediction" none,
       .update 100 "complete" none, .complete (resultDict res)] ∧
    progressWrites (process_job_s3 env).dbWrites = [20, 40, 60, 80, 100, 100] ∧
    List.Chain' (· ≤ ·) (progressWrites (process_job_s3 env).dbWrites) ∧
    (progressWrites (process_job_s3 env).dbWrites).getLast? = some 100 ∧
    (applyTrace rec0 t (process_job_s3 env).dbWrites).progress = 100 ∧
    (applyTrace rec0 t (process_job_s3 env).dbWrites).status = "completed" := by
  have hdb := success_shape env res h
  rw [hdb]
  refine ⟨rfl, by simp [progressWrites], by simp [progressWrites], by simp [progressWrites], ?_, ?_⟩
  · simp [applyTrace, applyWrite, update_job_progress, pyTruthy, complete_job]
  · simp [applyTrace, applyWrite, update_job_progress, pyTruthy, complete_job]

/-- C4 witness: the schedule evaluated in the all-success run. -/
theorem C4_witness :
    (process_job_s3 envOk).dbWrites =
      [.update 20 "download" none, .update 40 "thumbnail" none,
       .update 60 "transcode" none, .update 80 "ml_prediction" none,
       .update 100 "complete" none, .complete (resultDict resOk)] ∧
    progressWrites (process_job_s3 envOk).dbWrites = [20, 40, 60, 80, 100, 100] ∧
    List.Chain' (· ≤ ·) (progressWrites (process_job_s3 envOk).dbWrites) ∧
    (progressWrites (process_job_s3 envOk).dbWrites).getLast? = some 100 ∧
    (applyTrace rec0W "t1" (process_job_s3 envOk).dbWrites).progress = 100 ∧
    (applyTrace rec0W "t1" (process_job_s3 envOk).dbWrites).status = "completed" :=
  C4_success_schedule envOk resOk rec0W "t1" (by decide)

end CloudMLApp

namespace CloudMLApp

/-- C5 (confirmed): the worker deletes a message only after `process_job_s3`
returned for it (the deletion event follows the invocation event); a parse
failure or a raising processing call leaves the message undeleted; and
handling one message never prevents handling the rest of the batch. -/
theorem C5_ack_after_return (m : QueueMessage) (rest : List QueueMessage) (j s e : String) :
    (m.parse = .ok (j, s) → m.processRaises = none →
      handleMessage m = [.callProcess j s, .deleteMessage m.receiptHandle]) ∧
    (m.parse = .error e → (handleMessage m).countP isDeleteEvent = 0) ∧
    (m.processRaises = some e → (handleMessage m).countP isDeleteEvent = 0) ∧
    ((handleMessage m).countP isDeleteEvent ≠ 0 →
      parseSucceeded m = true ∧ m.processRaises = none) ∧
    workerIteration (m :: rest) = handleMessage m ++ workerIteration rest := by
  refine ⟨?_, ?_, ?_, ?_, workerIteration_cons m rest⟩
  · intro hp hr
    simp [handleMessage, hp, hr]
  · intro hp
    simp [handleMessage, hp, isDeleteEvent, List.countP_cons]
  · intro hr
    rcases hparse : m.parse with e2 | ⟨j2, s2⟩ <;>
      simp [handleMessage, hparse, hr, isDeleteEvent, List.countP_cons]
  · intro hne
    rcases hparse : m.parse with e2 | ⟨j2, s2⟩
    · simp [handleMessage, hparse, isDeleteEvent, List.countP_cons] at hne
    · rcases hr : m.processRaises with _ | e2
      · exact ⟨by simp [parseSucceeded, hparse], rfl⟩
      · simp [handleMessage, hparse, hr, isDeleteEvent, List.countP_cons] at hne

/-- A well-formed message whose processing returns. -/
def msgW : QueueMessage := ⟨"rh-1", .ok ("job-1", "uploads/u_vid.mp4"), none⟩

/-- C5 witness: the statement evaluated on a concrete one-message batch. -/
theorem C5_witness :
    (msgW.parse = .ok ("job-1", "uploads/u_vid.mp4") → msgW.processRaises = none →
      handleMessage msgW = [.callProcess "job-1" "uploads/u_vid.mp4", .deleteMessage msgW.receiptHandle]) ∧
    (msgW.parse = .error "bad json" → (handleMessage msgW).countP isDeleteEvent = 0) ∧
    (msgW.processRaises = some "bad json" → (handleMessage msgW).countP isDeleteEvent = 0) ∧
    ((handleMessage msgW).countP isDeleteEvent ≠ 0 →
      parseSucceeded msgW = true ∧ msgW.processRaises = none) ∧
    workerIteration (msgW :: []) = handleMessage msgW ++ workerIteration [] :=
  C5_ack_after_return msgW [] "job-1" "uploads/u_vid.mp4" "bad json"

/-- C6 (confirmed): the inference result list has exactly one entry per
`.jpg` frame of the sorted listing; a frame whose classification raises is
recorded in its place with the embedded error marker; and every position of
the result list — in particular every frame after a failing one — is the
per-frame entry of the corresponding `.jpg` frame. -/
theorem C6_per_frame_isolated (dir : List Frame) (k i : Nat) (fr : Frame) (e : String)
    (hfr : (jpgFrames dir)[k]? = some fr)
    (he : fr.classify = .error e) :
    (run_inference_on_frames dir).length = (jpgFrames dir).length ∧
    (run_inference_on_frames dir)[k]? = some ⟨fr.fname, .errorMarker e⟩ ∧
    (run_inference_on_frames dir)[i]? = ((jpgFrames dir)[i]?).map frameEntry := by
  rw [run_inference_eq]
  refine ⟨List.length_map _ _, ?_, List.getElem?_map _ _ _⟩
  rw [List.getElem?_map, hfr]
  simp [frameEntry, he]

/-- A frame whose classification raises. -/
def frameErrB : Frame := ⟨"b.jpg", .error "boom"⟩

/-- A frames directory with a failing middle frame and a non-jpg file. -/
def dirW : List Frame :=
  [frameErrB, ⟨"a.jpg", .ok []⟩, ⟨"c.jpg", .ok [⟨1, "dog", "0.5"⟩]⟩, ⟨"notes.txt", .ok []⟩]

/-- C6 witness: frame 1 (`b.jpg`) fails, gets the error marker in place, and
frame 2 (`c.jpg`) is still scored. -/
theorem C6_witness :
    (jpgFrames dirW)[1]? = some frameErrB ∧
    ((run_inference_on_frames dirW).length = (jpgFrames dirW).length ∧
     (run_inference_on_frames dirW)[1]? = some ⟨frameErrB.fname, .errorMarker "boom"⟩ ∧
     (run_inference_on_frames dirW)[2]? = ((jpgFrames dirW)[2]?).map frameEntry) :=
  ⟨by decide, C6_per_frame_isolated dirW 1 2 frameErrB "boom" (by decide) (by decide)⟩

/-- C7 (confirmed): `transcode_video` and `extract_frames` fail with the
missing-binary (`ToolUnavailable`-class) message exactly when ffmpeg is not
on PATH, and with the `CalledProcessError` message exactly when the process
exits non-zero; in a run with ffmpeg missing, the terminal progress record is
`failed` with the `ToolUnavailable`-class message as its `error_message`. -/
theorem C7_tool_conditions (ff : Bool) (tc ec : Nat) (env : Env)
    (rec0 : JobProgressRecord) (t : String)
    (henv : env.ffmpegFound = false) (hdl : env.downloadOk = true)
    (hp : env.failPersist = .ok) :
    (transcode_video ff tc = .error toolUnavailableMsg ↔ ff = false) ∧
    (extract_frames ff ec = .error toolUnavailableMsg ↔ ff = false) ∧
    (ff = true → (transcode_video ff tc = .error (calledProcessMsg "ffmpeg" tc) ↔ tc ≠ 0)) ∧
    (ff = true → (extract_frames ff ec = .error (calledProcessMsg "ffmpeg" ec) ↔ ec ≠ 0)) ∧
    (applyTrace rec0 t (process_job_s3 env).dbWrites).status = "failed" ∧
    (applyTrace rec0 t (process_job_s3 env).dbWrites).error_message = some toolUnavailableMsg := by
  have hrun : (process_job_s3 env).outcome = .failure toolUnavailableMsg := by
    unfold process_job_s3 process_job transcode_video
    rw [henv, hdl]
    simp [failPath]
  obtain ⟨ws, hws⟩ := failure_shape env toolUnavailableMsg hrun hp
  have hft := failTail rec0 t toolUnavailableMsg ws
  refine ⟨?_, ?_, ?_, ?_, ?_, ?_⟩
  · cases ff
    · simp [transcode_video]
    · by_cases htc : tc = 0 <;> simp [transcode_video, htc, calledProcessMsg_ne]
  · cases ff
    · simp [extract_frames]
    · by_cases hec : ec = 0 <;> simp [extract_frames, hec, calledProcessMsg_ne]
  · intro hff
    subst hff
    by_cases htc : tc = 0 <;> simp [transcode_video, htc]
  · intro hff
    subst hff
    by_cases hec : ec = 0 <;> simp [extract_frames, hec]
  · rw [hws]; exact hft.1
  · rw [hws]; exact hft.2.1

/-- C7 witness: the conditions evaluated at concrete arguments, with the
missing-ffmpeg run. -/
theorem C7_witness :
    (transcode_video false 0 = .error toolUnavailableMsg ↔ false = false) ∧
    (extract_frames false 0 = .error toolUnavailableMsg ↔ false = false) ∧
    (false = true → (transcode_video false 0 = .error (calledProcessMsg "ffmpeg" 0) ↔ 0 ≠ 0)) ∧
    (false = true → (extract_frames false 0 = .error (calledProcessMsg "ffmpeg" 0) ↔ 0 ≠ 0)) ∧
    (applyTrace rec0W "t1" (process_job_s3 envNoFfmpeg).dbWrites).status = "failed" ∧
    (applyTrace rec0W "t1" (process_job_s3 envNoFfmpeg).dbWrites).error_message
      = some toolUnavailableMsg :=
  C7_tool_conditions false 0 0 envNoFfmpeg rec0W "t1" (by decide) (by decide) (by decide)

end CloudMLApp

namespace CloudMLApp

/-- C8 (confirmed): `update_job_progress` sets exactly `progress`,
`current_step`, `updated_at`, and `ml_result` when (and only when) a truthy
`result` is supplied; every other attribute — `status`, `steps`,
`total_steps`, `created_at`, `video_filename`, `owner`, `error_message`, and
the key pair — keeps its previous value. -/
theorem C8_partial_update (rec : JobProgressRecord) (progress : Int)
    (current_step now : String) (result : Option MLDict) :
    (update_job_progress rec progress current_step now result).progress = progress ∧
    (update_job_progress rec progress current_step now result).current_step = current_step ∧
    (update_job_progress rec progress current_step now result).updated_at = now ∧
    (pyTruthy result = true →
      (update_job_progress rec progress current_step now result).ml_result
        = some ((result.getD []).map (fun p => (p.1, convertVal p.2)))) ∧
    (pyTruthy result = false →
      (update_job_progress rec progress current_step now result).ml_result = rec.ml_result) ∧
    (update_job_progress rec progress current_step now result).status = rec.status ∧
    (update_job_progress rec progress current_step now result).steps = rec.steps ∧
    (update_job_progress rec progress current_step now result).total_steps = rec.total_steps ∧
    (update_job_progress rec progress current_step now result).created_at = rec.created_at ∧
    (update_job_progress rec progress current_step now result).video_filename = rec.video_filename ∧
    (update_job_progress rec progress current_step now result).owner = rec.owner ∧
    (update_job_progress rec progress current_step now result).error_message = rec.error_message ∧
    (update_job_progress rec progress current_step now result).qut_username = rec.qut_username ∧
    (update_job_progress rec progress current_step now result).job_id = rec.job_id := by
  cases hpt : pyTruthy result <;> simp [update_job_progress, hpt]

/-- C8 witness: a concrete partial update with an ML result supplied. -/
theorem C8_witness :
    (update_job_progress rec0W 55 "transcode" "t5" (some [("score", MLVal.float "0.9")])).progress = 55 ∧
    (update_job_progress rec0W 55 "transcode" "t5" (some [("score", MLVal.float "0.9")])).current_step = "transcode" ∧
    (update_job_progress rec0W 55 "transcode" "t5" (some [("score", MLVal.float "0.9")])).updated_at = "t5" ∧
    (pyTruthy (some [("score", MLVal.float "0.9")]) = true →
      (update_job_progress rec0W 55 "transcode" "t5" (some [("score", MLVal.float "0.9")])).ml_result
        = some (((some [("score", MLVal.float "0.9")]).getD []).map (fun p => (p.1, convertVal p.2)))) ∧
    (pyTruthy (some [("score", MLVal.float "0.9")]) = false →
      (update_job_progress rec0W 55 "transcode" "t5" (some [("score", MLVal.float "0.9")])).ml_result = rec0W.ml_result) ∧
    (update_job_progress rec0W 55 "transcode" "t5" (some [("score", MLVal.float "0.9")])).status = rec0W.status ∧
    (update_job_progress rec0W 55 "transcode" "t5" (some [("score", MLVal.float "0.9")])).steps = rec0W.steps ∧
    (update_job_progress rec0W 55 "transcode" "t5" (some [("score", MLVal.float "0.9")])).total_steps = rec0W.total_steps ∧
    (update_job_progress rec0W 55 "transcode" "t5" (some [("score", MLVal.float "0.9")])).created_at = rec0W.created_at ∧
    (update_job_progress rec0W 55 "transcode" "t5" (some [("score", MLVal.float "0.9")])).video_filename = rec0W.video_filename ∧
    (update_job_progress rec0W 55 "transcode" "t5" (some [("score", MLVal.float "0.9")])).owner = rec0W.owner ∧
    (update_job_progress rec0W 55 "transcode" "t5" (some [("score", MLVal.float "0.9")])).error_message = rec0W.error_message ∧
    (update_job_progress rec0W 55 "transcode" "t5" (some [("score", MLVal.float "0.9")])).qut_username = rec0W.qut_username ∧
    (update_job_progress rec0W 55 "transcode" "t5" (some [("score", MLVal.float "0.9")])).job_id = rec0W.job_id :=
  C8_partial_update rec0W 55 "transcode" "t5" (some [("score", MLVal.float "0.9")])

/-- The frames-upload loop of `process_job_s3`
(`for frame_file in frame_files[:5]`): each frame is uploaded at its
job-keyed temp key; returns the final store and the keys written. -/
def uploadFrames (cfg : S3Config) (job_id : String) :
    List (String × String) → ObjectStore → ObjectStore × List String
  | [], st => (st, [])
  | ff :: rest, st =>
    let k := cfg.get_temp_key job_id ("frames/" ++ ff.1)
    let next := uploadFrames cfg job_id rest (upload_file cfg st ff.2 k).1
    (next.1, k :: next.2)

/-- The keys the frames-upload loop writes depend only on the configuration,
the job id, and the frame filenames — never on the store contents. -/
theorem uploadFrames_keys (cfg : S3Config) (job_id : String) (l : List (String × String)) :
    ∀ st : ObjectStore, (uploadFrames cfg job_id l st).2
      = l.map (fun ff => cfg.get_temp_key job_id ("frames/" ++ ff.1)) := by
  induction l with
  | nil => intro st; rfl
  | cons ff rest ih => intro st; simp [uploadFrames, ih]

/-- The upload section of `process_job_s3`: transcoded video (when present),
thumbnail (when present), the first five frames, and `result.json`, each at
its deterministic job-keyed object key.  Returns the final store and the
ordered list of keys written. -/
def uploadOutputs (cfg : S3Config) (store0 : ObjectStore) (job_id : String)
    (res : ProcessJobResult) (frameFiles : List (String × String))
    (transcodedContent thumbContent resultContent : String) :
    ObjectStore × List String :=
  let ks1 : List String :=
    match res.transcoded with
    | some fname => [cfg.get_transcoded_key job_id fname]
    | none => []
  let st1 : ObjectStore :=
    match res.transcoded with
    | some fname => (upload_file cfg store0 transcodedContent (cfg.get_transcoded_key job_id fname)).1
    | none => store0
  let ks2 : List String :=
    match res.thumbnail with
    | some fname => [cfg.get_thumbnail_key job_id fname]
    | none => []
  let st2 : ObjectStore :=
    match res.thumbnail with
    | some fname => (upload_file cfg st1 thumbContent (cfg.get_thumbnail_key job_id fname)).1
    | none => st1
  let fr := uploadFrames cfg job_id (frameFiles.take 5) st2
  let kr := cfg.get_temp_key job_id "result.json"
  ((upload_file cfg fr.1 resultContent kr).1, ks1 ++ ks2 ++ fr.2 ++ [kr])

/-- C9 (confirmed): re-running the upload section for the same job id and
filenames writes the same object keys whatever the store already holds (the
key functions are deterministic in job id and filename), and `upload_file`
at an already-occupied key succeeds and overwrites instead of raising. -/
theorem C9_redelivery_same_keys (cfg : S3Config) (job_id : String) (res : ProcessJobResult)
    (ffs : List (String × String)) (s1 s2 store : ObjectStore)
    (tc1 th1 rc1 tc2 th2 rc2 k c1 c2 : String)
    (hk : storeGet store k = some c1) :
    (uploadOutputs cfg s1 job_id res ffs tc1 th1 rc1).2
      = (uploadOutputs cfg s2 job_id res ffs tc2 th2 rc2).2 ∧
    (upload_file cfg store c2 k).2.success = true ∧
    storeGet (upload_file cfg store c2 k).1 k = some c2 := by
  refine ⟨?_, rfl, ?_⟩
  · rcases htr : res.transcoded with _ | fname <;> rcases hth : res.thumbnail with _ | fname2 <;>
      simp [uploadOutputs, htr, hth, uploadFrames_keys]
  · have hfind : List.find? (fun p => p.1 == k) ((k, c2) :: (store.filter (fun p => p.1 != k)))
        = some (k, c2) := List.find?_cons_of_pos _ (by simp)
    simp [upload_file, storePut, storeGet, hfind]

/-- A concrete key layout matching the defaults of `S3Config`. -/
def cfgW : S3Config :=
  { region := "ap-southeast-2", bucket_name := "n11086840-video-ml-transcode-bucket"
    prefix_upload := "uploads/", prefix_transcoded := "transcoded/"
    prefix_thumbnails := "thumbnails/", prefix_temp := "temp/" }

/-- C9 witness: a second delivery of job `job-1` re-uploads over a store that
already holds the first run's transcoded artifact. -/
theorem C9_witness :
    (uploadOutputs cfgW [] "job-1" resOk [("frame_00001.jpg", "f1")] "v1" "t1" "r1").2
      = (uploadOutputs cfgW [("transcoded/job-1/transcoded.mp4", "v1")] "job-1" resOk
          [("frame_00001.jpg", "f1")] "v2" "t2" "r2").2 ∧
    (upload_file cfgW [("transcoded/job-1/transcoded.mp4", "v1")] "v2" "transcoded/job-1/transcoded.mp4").2.success = true ∧
    storeGet (upload_file cfgW [("transcoded/job-1/transcoded.mp4", "v1")] "v2" "transcoded/job-1/transcoded.mp4").1
      "transcoded/job-1/transcoded.mp4" = some "v2" :=
  C9_redelivery_same_keys cfgW "job-1" resOk [("frame_00001.jpg", "f1")]
    [] [("transcoded/job-1/transcoded.mp4", "v1")] [("transcoded/job-1/transcoded.mp4", "v1")]
    "v1" "t1" "r1" "v2" "t2" "r2" "transcoded/job-1/transcoded.mp4" "v1" "v2" (by decide)

/-- C10 (confirmed): no sequence of tracker operations after creation ever
modifies the `steps` table — it stays the creation-time table and every step
still reads `pending`, even in a terminal state. -/
theorem C10_steps_frozen (q j v o t0 t : String) (ws : List TrackerWrite)
    (p : String × StepEntry)
    (hp : p ∈ (applyTrace (create_job_progress q j v o t0) t ws).steps) :
    (applyTrace (create_job_progress q j v o t0) t ws).steps = initialSteps ∧
    p.2.current_status = "pending" := by
  have hs : (applyTrace (create_job_progress q j v o t0) t ws).steps = initialSteps :=
    applyTrace_steps t ws (create_job_progress q j v o t0)
  refine ⟨hs, ?_⟩
  rw [hs] at hp
  fin_cases hp <;> rfl

/-- C10 witness: after an update, a completion and a failure write, step 3
still reads `pending`. -/
theorem C10_witness :
    ("3", StepEntry.mk "Transcode video" "pending")
      ∈ (applyTrace (create_job_progress "q" "job-1" "vid.mp4" "alice" "t0") "t1"
          [.update 60 "transcode" none, .complete [], .fail "boom"]).steps ∧
    ((applyTrace (create_job_progress "q" "job-1" "vid.mp4" "alice" "t0") "t1"
        [.update 60 "transcode" none, .complete [], .fail "boom"]).steps = initialSteps ∧
     (("3", StepEntry.mk "Transcode video" "pending") : String × StepEntry).2.current_status
       = "pending") :=
  ⟨by decide, C10_steps_frozen "q" "job-1" "vid.mp4" "alice" "t0" "t1"
    [.update 60 "transcode" none, .complete [], .fail "boom"]
    ("3", StepEntry.mk "Transcode video" "pending") (by decide)⟩

end CloudMLApp
